import Mathlib

/-!
Verification of the Banana_Deploy detection service (src/app.py) against its
natural-language specification.

The single source file implements a FastAPI endpoint `detect` that
 1. reads uploaded bytes (`await file.read()`),
 2. decodes them with `cv2.imdecode` (returns `None` on malformed input),
 3. resizes to 640x640,
 4. runs `MODEL_REAL.predict(source=img, conf=0.15, iou=0.45, imgsz=640)`,
 5. selects the detection with maximal confidence via `np.argmax`,
 6. maps the class id through `CLASS_KEYS.get(cls, "unknown")`,
 7. returns a JSON dict; any exception in the body is caught and converted
    to a `server_error` failure dict; a `finally` block closes the file.

We embed the pipeline shallowly: collaborator calls (read, imdecode, resize,
predict) are fields of a `RequestEnv`, each returning `Except` (a Python
exception carries its message string) so that every fault path of the Python
`try` block is a branch of the Lean function.  Responses are modelled as JSON
values, matching the Python dict literals field by field, and the function
additionally returns the ordered trace of side-effecting calls so that claims
about "no model invoked" and "file closed on every path" are statable.
-/

namespace BananaDeploy

/-- A Python exception, abstracted to its message (the code only uses
`str(e)` of a caught exception). -/
def Exn : Type := String

/-- Raw uploaded bytes (`img_bytes` at line 94). -/
def Bytes : Type := List Nat

/-- A decoded pixel buffer, treated as an opaque token (its contents are
never inspected by the pipeline, only passed to collaborators). -/
structure Img where
  id : Nat
deriving DecidableEq, Repr

/-- A loaded model artifact, also an opaque token. -/
structure Model where
  id : Nat
deriving DecidableEq, Repr

/-- One candidate detection from a model call: `results.boxes` row with its
class id (`cls`) and confidence (`conf`).  Confidences are embedded as
rationals. -/
structure Detection where
  class_id : ℤ
  conf : ℚ
deriving DecidableEq, Repr

/-- JSON values, enough to express the dicts the endpoint returns. -/
inductive Json where
  | bool : Bool → Json
  | str : String → Json
  | num : ℚ → Json
  | obj : List (String × Json) → Json

/-- Field lookup in a JSON object, first binding wins (Python dict literals
in the source have distinct keys). -/
def jGet (r : Json) (k : String) : Option Json :=
  match r with
  | .obj fields => fields.lookup k
  | _ => none

/-- CLASS_KEYS table, lines 44-55 of src/app.py. -/
def CLASS_KEYS : List (ℤ × String) :=
  [(0, "candyapple"), (1, "namwa"), (2, "namwadam"), (3, "homthong"),
   (4, "nak"), (5, "thepphanom"), (6, "kai"), (7, "lepchangkut"),
   (8, "ngachang"), (9, "huamao")]

/-- Python `dict.get(k, default)`. -/
def dictGet (d : List (ℤ × String)) (k : ℤ) (dflt : String) : String :=
  match d.lookup k with
  | some v => v
  | none => dflt

/-- `np.argmax` on a list of rationals: index of the first occurrence of the
maximum (numpy returns the first maximal index).  Only called on non-empty
input by the pipeline. -/
def np_argmax : List ℚ → Nat
  | [] => 0
  | [_] => 0
  | x :: y :: t =>
    if x < (y :: t).getD (np_argmax (y :: t)) 0 then np_argmax (y :: t) + 1
    else 0

/-- Python `round(x, 3)`: round to 3 decimal places, ties to even (banker's
rounding), on the exact rational value.  Computed on the numerator and
denominator with integer arithmetic: with `s = q * 1000 = n / d` (`d > 0`),
`f = floor s` and `rem2 = 2 * d * (s - f)`, the fractional part of `s` is
below, above, or exactly one half according as `rem2` compares with `d`. -/
def round3 (q : ℚ) : ℚ :=
  let n : ℤ := q.num * 1000
  let d : ℤ := (q.den : ℤ)
  let f : ℤ := n / d
  let rem2 : ℤ := 2 * (n - f * d)
  let r : ℤ :=
    if rem2 < d then f
    else if d < rem2 then f + 1
    else if f % 2 = 0 then f else f + 1
  mkRat r 1000

/-- The keyword arguments of the `MODEL_REAL.predict` call at lines 105-111. -/
structure PredictArgs where
  conf : ℚ
  iou : ℚ
  imgsz : ℕ
deriving DecidableEq, Repr

/-- conf=0.15, iou=0.45, imgsz=640 as passed at lines 107-109. -/
def detectArgs : PredictArgs := ⟨mkRat 15 100, mkRat 45 100, 640⟩

/-- The behaviour of the collaborators for one request: each field gives the
outcome of the corresponding external call; `Except.error e` is the call
raising an exception with message `e`.  `imdecode` may also succeed with
`none`, which is `cv2.imdecode` returning `None` on malformed bytes. -/
structure RequestEnv where
  read : Except Exn Bytes
  imdecode : Bytes → Except Exn (Option Img)
  resize : Img → ℕ × ℕ → Except Exn Img
  predict : Img → PredictArgs → Except Exn (List Detection)

/-- Observable side-effecting calls made while handling a request. -/
inductive Event where
  | readFile
  | imdecodeCall
  | resizeCall
  | predictCall
  | closeFile
deriving DecidableEq, Repr

/-- The `server_error` dict built by the `except` handler, lines 142-146. -/
def serverError (e : Exn) : Json :=
  .obj [("success", .bool false), ("reason", .str "server_error"),
        ("detail", .str e)]

/-- The decode-failure dict, line 99. -/
def invalidImage : Json :=
  .obj [("success", .bool false), ("reason", .str "invalid_image")]

/-- The empty-detections dict, lines 115-118. -/
def noBanana : Json :=
  .obj [("success", .bool false), ("reason", .str "no_banana_detected")]

/-- The success dict, lines 128-138: selection of the best detection
(lines 120-125) followed by the response literal. -/
def successBody (boxes : List Detection) (filename : String) : Json :=
  let confs := boxes.map (fun d => d.conf)
  let clses := boxes.map (fun d => d.class_id)
  let best_idx := np_argmax confs
  let banana_slug := dictGet CLASS_KEYS (clses.getD best_idx 0) "unknown"
  .obj [("success", .bool true),
        ("banana_key", .str banana_slug),
        ("class_name", .str banana_slug),
        ("confidence", .num (round3 (confs.getD best_idx 0))),
        ("debug", .obj [("count", .num (boxes.length : ℚ)),
                        ("model", .str "YOLOv8-optimized"),
                        ("filename", .str filename)])]

/-- The body of the `try` block of `detect` (lines 92-146), including the
`except Exception` handler: every collaborator exception is caught and
becomes `serverError`.  Returns the response together with the trace of
collaborator calls made. -/
def tryBody (env : RequestEnv) (filename : String) : Json × List Event :=
  match env.read with
  | .error e => (serverError e, [.readFile])
  | .ok img_bytes =>
    match env.imdecode img_bytes with
    | .error e => (serverError e, [.readFile, .imdecodeCall])
    | .ok none =>
      (invalidImage, [.readFile, .imdecodeCall])
    | .ok (some img) =>
      match env.resize img (640, 640) with
      | .error e => (serverError e, [.readFile, .imdecodeCall, .resizeCall])
      | .ok img640 =>
        match env.predict img640 detectArgs with
        | .error e =>
          (serverError e,
           [.readFile, .imdecodeCall, .resizeCall, .predictCall])
        | .ok boxes =>
          if boxes.length = 0 then
            (noBanana, [.readFile, .imdecodeCall, .resizeCall, .predictCall])
          else
            (successBody boxes filename,
             [.readFile, .imdecodeCall, .resizeCall, .predictCall])

/-- `detect` (lines 91-150): the `try` body followed by the `finally` block,
which closes the uploaded file on every path. -/
def detect (env : RequestEnv) (filename : String) : Json × List Event :=
  let body := tryBody env filename
  (body.1, body.2 ++ [.closeFile])

/-- The behaviour of the startup collaborators (lines 29-39):
whether `os.path.exists(MODEL_PATH)` holds, and the outcomes of the two
possible `YOLO(...)` constructor calls. -/
structure StartupEnv where
  primaryExists : Bool
  loadPrimary : Except Exn Model
  loadFallback : Except Exn Model

/-- Startup model resolution, lines 30-39: try `best_modelv8sbg.pt` first
(raising FileNotFoundError if absent), and on any exception fall back to
loading `best_modelv8nbg.pt`.  An `Except.error` result is the fallback
constructor raising, which is uncaught at import time: the process aborts. -/
def loadModels (env : StartupEnv) : Except Exn Model :=
  match
    (if env.primaryExists then env.loadPrimary
     else .error "YOLOv8s file not found" : Except Exn Model) with
  | .ok m => .ok m
  | .error _ => env.loadFallback

/-! ### Properties of np_argmax -/

/-- The index returned by `np_argmax` is in bounds for a non-empty list. -/
theorem np_argmax_lt_length : ∀ (l : List ℚ), l ≠ [] → np_argmax l < l.length
  | [], h => absurd rfl h
  | [_], _ => by simp [np_argmax]
  | x :: y :: t, _ => by
    have ih := np_argmax_lt_length (y :: t) (by simp)
    by_cases hc : x < (y :: t).getD (np_argmax (y :: t)) 0
    · simp only [np_argmax, if_pos hc, List.length_cons]
      simp only [List.length_cons] at ih
      omega
    · simp only [np_argmax, if_neg hc, List.length_cons]
      omega

/-- The value at the `np_argmax` index dominates every element. -/
theorem np_argmax_is_max :
    ∀ (l : List ℚ), ∀ j, j < l.length → l.getD j 0 ≤ l.getD (np_argmax l) 0
  | [], j, h => by simp at h
  | [x], j, h => by
    have hj : j = 0 := by simpa using h
    subst hj
    simp [np_argmax]
  | x :: y :: t, j, h => by
    by_cases hc : x < (y :: t).getD (np_argmax (y :: t)) 0
    · simp only [np_argmax, if_pos hc, List.getD_cons_succ]
      cases j with
      | zero => simpa using le_of_lt hc
      | succ k =>
        have hk : k < (y :: t).length := by
          simpa [List.length_cons] using h
        simpa using np_argmax_is_max (y :: t) k hk
    · push_neg at hc
      simp only [np_argmax, if_neg (not_lt.mpr hc), List.getD_cons_zero]
      cases j with
      | zero => simp
      | succ k =>
        have hk : k < (y :: t).length := by
          simpa [List.length_cons] using h
        have hrec := np_argmax_is_max (y :: t) k hk
        simp only [List.getD_cons_succ]
        exact le_trans hrec hc

/-- Every element strictly before the `np_argmax` index is strictly below
the value there: ties are resolved by first occurrence. -/
theorem np_argmax_first :
    ∀ (l : List ℚ), ∀ j, j < np_argmax l → l.getD j 0 < l.getD (np_argmax l) 0
  | [], j, h => by simp [np_argmax] at h
  | [x], j, h => by simp [np_argmax] at h
  | x :: y :: t, j, h => by
    by_cases hc : x < (y :: t).getD (np_argmax (y :: t)) 0
    · simp only [np_argmax, if_pos hc] at h ⊢
      cases j with
      | zero => simpa using hc
      | succ k =>
        have hk : k < np_argmax (y :: t) := by omega
        simpa using np_argmax_first (y :: t) k hk
    · simp only [np_argmax, if_neg hc] at h
      omega

/-- The value selected by `np_argmax` is the maximum of the list. -/
theorem np_argmax_maximum (l : List ℚ) (h : l ≠ []) :
    l.maximum = some (l.getD (np_argmax l) 0) := by
  have hlt := np_argmax_lt_length l h
  rw [show (some (l.getD (np_argmax l) 0) : Option ℚ) =
      ((l.getD (np_argmax l) 0 : ℚ) : WithBot ℚ) from rfl]
  rw [List.maximum_eq_coe_iff]
  constructor
  · rw [List.getD_eq_getElem l 0 hlt]
    exact List.getElem_mem hlt
  · intro a ha
    obtain ⟨i, hi, rfl⟩ := List.mem_iff_getElem.mp ha
    have := np_argmax_is_max l i hi
    rwa [List.getD_eq_getElem l 0 hi] at this

example : np_argmax [(1 : ℚ), 2, 2] = 1 := by decide
example : np_argmax [(5 : ℚ), 2, 2] = 0 := by decide
example : np_argmax [mkRat 1 2, mkRat 9 10, mkRat 9 10] = 1 := by decide
example : round3 (mkRat 12345 10000) = mkRat 1234 1000 := by decide
example : round3 (mkRat 12355 10000) = mkRat 1236 1000 := by decide
example : round3 (mkRat 8 10) = mkRat 800 1000 := by decide
example : dictGet CLASS_KEYS 99 "unknown" = "unknown" := by decide
example : dictGet CLASS_KEYS 3 "unknown" = "homthong" := by decide

/-! Concrete request environments, used to exercise the theorems on
specific scenarios. -/

/-- An environment in which every collaborator call succeeds and the model
returns the given detections. -/
def okEnv (boxes : List Detection) : RequestEnv where
  read := .ok [1, 2, 3]
  imdecode := fun _ => .ok (some ⟨0⟩)
  resize := fun _ _ => .ok ⟨1⟩
  predict := fun _ _ => .ok boxes

/-- An environment in which reading the uploaded file raises. -/
def readFailEnv : RequestEnv where
  read := .error "read failed"
  imdecode := fun _ => .ok none
  resize := fun _ _ => .ok ⟨1⟩
  predict := fun _ _ => .ok []

/-- An environment in which `cv2.imdecode` returns `None` (malformed
bytes). -/
def badDecodeEnv : RequestEnv where
  read := .ok [0]
  imdecode := fun _ => .ok none
  resize := fun _ _ => .ok ⟨1⟩
  predict := fun _ _ => .ok []

/-- An environment in which the model invocation raises. -/
def predictFailEnv : RequestEnv where
  read := .ok [0]
  imdecode := fun _ => .ok (some ⟨0⟩)
  resize := fun _ _ => .ok ⟨1⟩
  predict := fun _ _ => .error "backend error"

/-! Shape lemmas about the endpoint. -/

/-- Every run of the endpoint produces one of the four response shapes of
the source: a server_error dict, the invalid_image dict, the
no_banana_detected dict, or the success dict for a non-empty detection
list. -/
theorem detect_cases (env : RequestEnv) (fn : String) :
    (∃ e, (detect env fn).1 = serverError e) ∨
    (detect env fn).1 = invalidImage ∨
    (detect env fn).1 = noBanana ∨
    (∃ boxes, boxes ≠ [] ∧ (detect env fn).1 = successBody boxes fn) := by
  rcases hr : env.read with e | b
  · exact Or.inl ⟨e, by simp [detect, tryBody, hr]⟩
  · rcases hd : env.imdecode b with e | oi
    · exact Or.inl ⟨e, by simp [detect, tryBody, hr, hd]⟩
    · rcases oi with _ | i
      · exact Or.inr (Or.inl (by simp [detect, tryBody, hr, hd]))
      · rcases hz : env.resize i (640, 640) with e | i2
        · exact Or.inl ⟨e, by simp [detect, tryBody, hr, hd, hz]⟩
        · rcases hp : env.predict i2 detectArgs with e | boxes
          · exact Or.inl ⟨e, by simp [detect, tryBody, hr, hd, hz, hp]⟩
          · rcases boxes with _ | ⟨d, rest⟩
            · exact Or.inr (Or.inr (Or.inl
                (by simp [detect, tryBody, hr, hd, hz, hp])))
            · exact Or.inr (Or.inr (Or.inr ⟨d :: rest, by simp,
                by simp [detect, tryBody, hr, hd, hz, hp]⟩))

/-- The success dict tags `success` with `true` (first key of the literal
at line 129). -/
theorem jGet_successBody_success (boxes : List Detection) (fn : String) :
    jGet (successBody boxes fn) "success" = some (.bool true) := rfl

/-- The success dict has no `reason` key. -/
theorem jGet_successBody_reason (boxes : List Detection) (fn : String) :
    jGet (successBody boxes fn) "reason" = none := rfl

/-- The success dict has no `engine` key. -/
theorem jGet_successBody_engine (boxes : List Detection) (fn : String) :
    jGet (successBody boxes fn) "engine" = none := rfl

/-- The `banana_key` field of the success dict is the `CLASS_KEYS` lookup
of the selected class id, with default `"unknown"`. -/
theorem jGet_successBody_banana_key (boxes : List Detection) (fn : String) :
    jGet (successBody boxes fn) "banana_key" =
      some (.str (dictGet CLASS_KEYS
        ((boxes.map (fun d => d.class_id)).getD
          (np_argmax (boxes.map (fun d => d.conf))) 0) "unknown")) := rfl

/-- The `confidence` field of the success dict is the selected confidence
rounded to 3 decimal places. -/
theorem jGet_successBody_confidence (boxes : List Detection) (fn : String) :
    jGet (successBody boxes fn) "confidence" =
      some (.num (round3 ((boxes.map (fun d => d.conf)).getD
        (np_argmax (boxes.map (fun d => d.conf))) 0))) := rfl

/-- The failure dicts tag `success` with `false`. -/
theorem jGet_serverError_success (e : Exn) :
    jGet (serverError e) "success" = some (.bool false) := rfl

/-- The invalid_image dict tags `success` with `false`. -/
theorem jGet_invalidImage_success :
    jGet invalidImage "success" = some (.bool false) := rfl

/-- The no_banana_detected dict tags `success` with `false`. -/
theorem jGet_noBanana_success :
    jGet noBanana "success" = some (.bool false) := rfl

/-! Claim theorems. -/

/-- C1: every request to the detect endpoint yields exactly one well-formed
outcome object, tagged either Success (`success: true`) or Failure
(`success: false`), never both and never neither; and every stage-local
exception (read, decode, resize, or inference raising) is caught by the
`except Exception` handler and converted to a tagged `server_error` Failure,
so the pipeline never raises a raw fault to its caller. -/
theorem C1_single_tagged_outcome (env : RequestEnv) (fn : String) :
    ((jGet (detect env fn).1 "success" = some (.bool true) ∧
      jGet (detect env fn).1 "success" ≠ some (.bool false)) ∨
     (jGet (detect env fn).1 "success" = some (.bool false) ∧
      jGet (detect env fn).1 "success" ≠ some (.bool true))) ∧
    (∀ e, env.read = .error e → (detect env fn).1 = serverError e) ∧
    (∀ b e, env.read = .ok b → env.imdecode b = .error e →
      (detect env fn).1 = serverError e) ∧
    (∀ b i e, env.read = .ok b → env.imdecode b = .ok (some i) →
      env.resize i (640, 640) = .error e →
      (detect env fn).1 = serverError e) ∧
    (∀ b i i2 e, env.read = .ok b → env.imdecode b = .ok (some i) →
      env.resize i (640, 640) = .ok i2 →
      env.predict i2 detectArgs = .error e →
      (detect env fn).1 = serverError e) := by
  refine ⟨?_, ?_, ?_, ?_, ?_⟩
  · rcases detect_cases env fn with ⟨e, hE⟩ | hI | hN | ⟨boxes, hne, hS⟩
    · rw [hE, jGet_serverError_success]
      exact Or.inr ⟨rfl, by simp⟩
    · rw [hI, jGet_invalidImage_success]
      exact Or.inr ⟨rfl, by simp⟩
    · rw [hN, jGet_noBanana_success]
      exact Or.inr ⟨rfl, by simp⟩
    · rw [hS, jGet_successBody_success]
      exact Or.inl ⟨rfl, by simp⟩
  · intro e hr
    simp [detect, tryBody, hr]
  · intro b e hr hd
    simp [detect, tryBody, hr, hd]
  · intro b i e hr hd hz
    simp [detect, tryBody, hr, hd, hz]
  · intro b i i2 e hr hd hz hp
    simp [detect, tryBody, hr, hd, hz, hp]

/-- C1 witness: in the environment whose read call raises and in the
environment whose inference call raises, the response is the tagged
server_error dict, obtained from the claim theorem at those inputs. -/
theorem C1_single_tagged_outcome_witness :
    (detect readFailEnv "a.jpg").1 = serverError "read failed" ∧
    (detect predictFailEnv "a.jpg").1 = serverError "backend error" :=
  ⟨(C1_single_tagged_outcome readFailEnv "a.jpg").2.1 "read failed" rfl,
   (C1_single_tagged_outcome predictFailEnv "a.jpg").2.2.2.2
     [0] ⟨0⟩ ⟨1⟩ "backend error" rfl rfl rfl rfl⟩

/-- C2: when the model invocation returns an empty DetectionSet the outcome
is the Failure dict with reason `no_banana_detected`, and no further model
stage runs: the whole request performs exactly one predict call. -/
theorem C2_empty_detections_no_banana (env : RequestEnv) (fn : String)
    (b : Bytes) (i i2 : Img)
    (hr : env.read = .ok b) (hd : env.imdecode b = .ok (some i))
    (hz : env.resize i (640, 640) = .ok i2)
    (hp : env.predict i2 detectArgs = .ok []) :
    (detect env fn).1 = noBanana ∧
    (detect env fn).2.count .predictCall = 1 := by
  have h : detect env fn =
      (noBanana, [.readFile, .imdecodeCall, .resizeCall, .predictCall,
                  .closeFile]) := by
    simp [detect, tryBody, hr, hd, hz, hp]
  rw [h]
  exact ⟨rfl, by decide⟩

/-- C2 witness: the all-success environment whose model returns no
detections produces the no_banana_detected failure with a single predict
call. -/
theorem C2_empty_detections_no_banana_witness :
    (detect (okEnv []) "a.jpg").1 = noBanana ∧
    (detect (okEnv []) "a.jpg").2.count .predictCall = 1 :=
  C2_empty_detections_no_banana (okEnv []) "a.jpg" [1, 2, 3] ⟨0⟩ ⟨1⟩
    rfl rfl rfl rfl

/-- C3: on a non-empty DetectionSet the selected index is in bounds, its
confidence is greatest, every earlier detection has strictly smaller
confidence (so ties are resolved by the first occurrence in the model's
output order), and identical input yields the identical selected index:
selection is deterministic. -/
theorem C3_selection_first_argmax (boxes : List Detection)
    (h : boxes ≠ []) :
    np_argmax (boxes.map (fun d => d.conf)) < boxes.length ∧
    (∀ j, j < boxes.length →
      (boxes.map (fun d => d.conf)).getD j 0 ≤
        (boxes.map (fun d => d.conf)).getD
          (np_argmax (boxes.map (fun d => d.conf))) 0) ∧
    (∀ j, j < np_argmax (boxes.map (fun d => d.conf)) →
      (boxes.map (fun d => d.conf)).getD j 0 <
        (boxes.map (fun d => d.conf)).getD
          (np_argmax (boxes.map (fun d => d.conf))) 0) ∧
    (∀ boxes2 : List Detection, boxes2 = boxes →
      np_argmax (boxes2.map (fun d => d.conf)) =
        np_argmax (boxes.map (fun d => d.conf))) := by
  have hmap : boxes.map (fun d => d.conf) ≠ [] := by
    simpa [List.map_eq_nil_iff] using h
  refine ⟨?_, ?_, ?_, ?_⟩
  · have h1 := np_argmax_lt_length (boxes.map (fun d => d.conf)) hmap
    rwa [List.length_map] at h1
  · intro j hj
    have hj2 : j < (boxes.map (fun d => d.conf)).length := by
      rwa [List.length_map]
    exact np_argmax_is_max (boxes.map (fun d => d.conf)) j hj2
  · intro j hj
    have h2 := np_argmax_first (boxes.map (fun d => d.conf)) j
    exact h2 hj
  · intro boxes2 h2
    rw [h2]

/-- C3 witness: on the DetectionSet with confidences 0.5, 0.9, 0.9 the
selected index is 1, the first of the two tied maxima, and it is in
bounds. -/
theorem C3_selection_first_argmax_witness :
    np_argmax (([⟨1, mkRat 1 2⟩, ⟨2, mkRat 9 10⟩, ⟨3, mkRat 9 10⟩] :
        List Detection).map (fun d => d.conf)) <
      ([⟨1, mkRat 1 2⟩, ⟨2, mkRat 9 10⟩, ⟨3, mkRat 9 10⟩] :
        List Detection).length ∧
    np_argmax (([⟨1, mkRat 1 2⟩, ⟨2, mkRat 9 10⟩, ⟨3, mkRat 9 10⟩] :
        List Detection).map (fun d => d.conf)) = 1 :=
  ⟨(C3_selection_first_argmax
      [⟨1, mkRat 1 2⟩, ⟨2, mkRat 9 10⟩, ⟨3, mkRat 9 10⟩] (by simp)).1,
   by decide⟩

/-- C4 counterexample: in the all-success environment whose model returns
the single detection with class id 1 and confidence 0.10, strictly below
the 0.15 confidence threshold the endpoint passes to the model, the
response is Success (`success: true`, no `reason` key), not
`Failure(low_confidence)`: the endpoint has no low-confidence check on the
returned DetectionSet. -/
theorem C4_low_confidence_cex :
    jGet (detect (okEnv [⟨1, mkRat 1 10⟩]) "a.jpg").1 "success" =
      some (.bool true) ∧
    jGet (detect (okEnv [⟨1, mkRat 1 10⟩]) "a.jpg").1 "reason" = none ∧
    mkRat 1 10 < detectArgs.conf :=
  ⟨rfl, rfl, by decide⟩

/-- C4 amended: the endpoint never compares the best returned confidence
with an acceptance threshold: for every non-empty DetectionSet returned by
the model the outcome is Success, whatever the confidences are.  The only
confidence filtering is the `conf=0.15` parameter passed to the model
invocation itself. -/
theorem C4_no_low_confidence_branch (env : RequestEnv) (fn : String)
    (b : Bytes) (i i2 : Img) (boxes : List Detection)
    (hr : env.read = .ok b) (hd : env.imdecode b = .ok (some i))
    (hz : env.resize i (640, 640) = .ok i2)
    (hp : env.predict i2 detectArgs = .ok boxes) (hne : boxes ≠ []) :
    jGet (detect env fn).1 "success" = some (.bool true) ∧
    jGet (detect env fn).1 "reason" = none ∧
    detectArgs.conf = mkRat 15 100 := by
  have h : (detect env fn).1 = successBody boxes fn := by
    simp [detect, tryBody, hr, hd, hz, hp, List.length_eq_zero, hne]
  rw [h, jGet_successBody_success, jGet_successBody_reason]
  exact ⟨rfl, rfl, rfl⟩

/-- C4 amended witness: the detection with confidence 0.10 (below 0.15)
still yields Success. -/
theorem C4_no_low_confidence_branch_witness :
    jGet (detect (okEnv [⟨1, mkRat 1 10⟩]) "b.jpg").1 "success" =
      some (.bool true) ∧
    jGet (detect (okEnv [⟨1, mkRat 1 10⟩]) "b.jpg").1 "reason" = none ∧
    detectArgs.conf = mkRat 15 100 :=
  C4_no_low_confidence_branch (okEnv [⟨1, mkRat 1 10⟩]) "b.jpg"
    [1, 2, 3] ⟨0⟩ ⟨1⟩ [⟨1, mkRat 1 10⟩] rfl rfl rfl rfl (by simp)

/-- C5 counterexample: in the all-success environment whose model returns
the single detection with class id 99, absent from CLASS_KEYS, the
response is Success with the sentinel `banana_key` value `"unknown"` and
no `reason` key, not `Failure(unknown_class_id)`. -/
theorem C5_unknown_class_cex :
    jGet (detect (okEnv [⟨99, mkRat 8 10⟩]) "a.jpg").1 "success" =
      some (.bool true) ∧
    jGet (detect (okEnv [⟨99, mkRat 8 10⟩]) "a.jpg").1 "banana_key" =
      some (.str "unknown") ∧
    jGet (detect (okEnv [⟨99, mkRat 8 10⟩]) "a.jpg").1 "reason" = none :=
  ⟨rfl, rfl, rfl⟩

/-- C5 amended: the endpoint resolves class ids leniently: whenever the
selected detection's class id is not a key of CLASS_KEYS, the outcome is
still Success and `banana_key` is the sentinel string `"unknown"`
(`CLASS_KEYS.get(..., "unknown")` at line 125), never a Failure. -/
theorem C5_lenient_unknown_class (env : RequestEnv) (fn : String)
    (b : Bytes) (i i2 : Img) (boxes : List Detection)
    (hr : env.read = .ok b) (hd : env.imdecode b = .ok (some i))
    (hz : env.resize i (640, 640) = .ok i2)
    (hp : env.predict i2 detectArgs = .ok boxes) (hne : boxes ≠ [])
    (hmiss : CLASS_KEYS.lookup
      ((boxes.map (fun d => d.class_id)).getD
        (np_argmax (boxes.map (fun d => d.conf))) 0) = none) :
    jGet (detect env fn).1 "success" = some (.bool true) ∧
    jGet (detect env fn).1 "banana_key" = some (.str "unknown") ∧
    jGet (detect env fn).1 "reason" = none := by
  have h : (detect env fn).1 = successBody boxes fn := by
    simp [detect, tryBody, hr, hd, hz, hp, List.length_eq_zero, hne]
  rw [h, jGet_successBody_success, jGet_successBody_reason,
    jGet_successBody_banana_key]
  refine ⟨rfl, ?_, rfl⟩
  have hu : dictGet CLASS_KEYS
      ((boxes.map (fun d => d.class_id)).getD
        (np_argmax (boxes.map (fun d => d.conf))) 0) "unknown" =
      "unknown" := by
    unfold dictGet
    rw [hmiss]
  rw [hu]

/-- C5 amended witness: class id 99 resolves to the sentinel
`"unknown"` inside a Success response. -/
theorem C5_lenient_unknown_class_witness :
    jGet (detect (okEnv [⟨99, mkRat 8 10⟩]) "b.jpg").1 "success" =
      some (.bool true) ∧
    jGet (detect (okEnv [⟨99, mkRat 8 10⟩]) "b.jpg").1 "banana_key" =
      some (.str "unknown") ∧
    jGet (detect (okEnv [⟨99, mkRat 8 10⟩]) "b.jpg").1 "reason" = none :=
  C5_lenient_unknown_class (okEnv [⟨99, mkRat 8 10⟩]) "b.jpg"
    [1, 2, 3] ⟨0⟩ ⟨1⟩ [⟨99, mkRat 8 10⟩] rfl rfl rfl rfl (by simp)
    (by decide)

/-- C6 counterexample: on the environment whose bytes fail to decode
(`cv2.imdecode` returns `None`), the failure reason emitted at line 99 is
the string "invalid_image", which is not the string
"invalid_image_format" the claim names. -/
theorem C6_reason_string_cex :
    jGet (detect badDecodeEnv "a.jpg").1 "reason" =
      some (.str "invalid_image") ∧
    "invalid_image" ≠ "invalid_image_format" ∧
    (detect badDecodeEnv "a.jpg").2.count .predictCall = 0 :=
  ⟨rfl, by decide, by decide⟩

/-- C6 amended: for every uploaded payload whose bytes fail to decode, the
outcome is the Failure dict with reason `invalid_image` (the source's
string at line 99, not `invalid_image_format`), and no model is invoked on
that request. -/
theorem C6_invalid_image_no_model (env : RequestEnv) (fn : String)
    (b : Bytes) (hr : env.read = .ok b)
    (hd : env.imdecode b = .ok none) :
    (detect env fn).1 = invalidImage ∧
    Event.predictCall ∉ (detect env fn).2 := by
  have h : detect env fn =
      (invalidImage, [.readFile, .imdecodeCall, .closeFile]) := by
    simp [detect, tryBody, hr, hd]
  rw [h]
  exact ⟨rfl, by decide⟩

/-- C6 amended witness: the malformed-bytes environment produces the
invalid_image failure and never calls the model. -/
theorem C6_invalid_image_no_model_witness :
    (detect badDecodeEnv "b.jpg").1 = invalidImage ∧
    Event.predictCall ∉ (detect badDecodeEnv "b.jpg").2 :=
  C6_invalid_image_no_model badDecodeEnv "b.jpg" [0] rfl rfl

/-- C7 counterexample: a Success response of the endpoint (class id 1,
confidence 0.8, fully successful collaborators) carries no `engine` field
at all, contradicting the claim that every Success carries
`engine: "main" | "fallback"`. -/
theorem C7_engine_field_cex :
    jGet (detect (okEnv [⟨1, mkRat 8 10⟩]) "a.jpg").1 "success" =
      some (.bool true) ∧
    jGet (detect (okEnv [⟨1, mkRat 8 10⟩]) "a.jpg").1 "engine" = none :=
  ⟨rfl, rfl⟩

/-- C7 amended: no response of the endpoint carries an `engine` field; the
only model identification a Success response carries is the constant
`debug.model = "YOLOv8-optimized"`, which does not distinguish the primary
artifact from the fallback artifact chosen at startup. -/
theorem C7_no_engine_field (env : RequestEnv) (fn : String) :
    jGet (detect env fn).1 "engine" = none ∧
    (jGet (detect env fn).1 "success" = some (.bool true) →
      (jGet (detect env fn).1 "debug").bind (fun d => jGet d "model") =
        some (.str "YOLOv8-optimized")) := by
  rcases detect_cases env fn with ⟨e, hE⟩ | hI | hN | ⟨boxes, hne, hS⟩
  · rw [hE]
    refine ⟨rfl, fun hcontra => ?_⟩
    rw [jGet_serverError_success] at hcontra
    simp at hcontra
  · rw [hI]
    refine ⟨rfl, fun hcontra => ?_⟩
    rw [jGet_invalidImage_success] at hcontra
    simp at hcontra
  · rw [hN]
    refine ⟨rfl, fun hcontra => ?_⟩
    rw [jGet_noBanana_success] at hcontra
    simp at hcontra
  · rw [hS]
    exact ⟨jGet_successBody_engine boxes fn, fun _ => rfl⟩

/-- C7 amended witness: a concrete Success response has no engine field
and the constant debug model string. -/
theorem C7_no_engine_field_witness :
    jGet (detect (okEnv [⟨1, mkRat 8 10⟩]) "b.jpg").1 "engine" = none ∧
    (jGet (detect (okEnv [⟨1, mkRat 8 10⟩]) "b.jpg").1 "debug").bind
      (fun d => jGet d "model") = some (.str "YOLOv8-optimized") :=
  ⟨(C7_no_engine_field (okEnv [⟨1, mkRat 8 10⟩]) "b.jpg").1,
   (C7_no_engine_field (okEnv [⟨1, mkRat 8 10⟩]) "b.jpg").2 rfl⟩

/-- C8: the model artifact is resolved at process start by a deterministic
search order: the primary candidate (best_modelv8sbg.pt) is tried first
and wins whenever it exists and loads; on a missing file or a load
exception the fallback candidate (best_modelv8nbg.pt) is loaded; a loaded
model always comes from one of the two candidates; and when the fallback
load also fails its exception is uncaught at import time, so startup
aborts rather than silently ignoring the failure. -/
theorem C8_model_resolution (env : StartupEnv) :
    (∀ m, env.primaryExists = true → env.loadPrimary = .ok m →
      loadModels env = .ok m) ∧
    (env.primaryExists = false → loadModels env = env.loadFallback) ∧
    (∀ e, env.loadPrimary = .error e →
      loadModels env = env.loadFallback) ∧
    (∀ m, loadModels env = .ok m →
      (env.primaryExists = true ∧ env.loadPrimary = .ok m) ∨
        env.loadFallback = .ok m) ∧
    (∀ e2, env.loadFallback = .error e2 →
      (env.primaryExists = false ∨ (∃ e, env.loadPrimary = .error e)) →
      loadModels env = .error e2) := by
  refine ⟨?_, ?_, ?_, ?_, ?_⟩
  · intro m hex hok
    simp [loadModels, hex, hok]
  · intro hex
    simp [loadModels, hex]
  · intro e herr
    rcases hex : env.primaryExists with _ | _
    · simp [loadModels, hex]
    · simp [loadModels, hex, herr]
  · intro m hok
    rcases hex : env.primaryExists with _ | _
    · right
      simpa [loadModels, hex] using hok
    · rcases hp : env.loadPrimary with e | m2
      · right
        simpa [loadModels, hex, hp] using hok
      · left
        have h2 : m2 = m := by simpa [loadModels, hex, hp] using hok
        exact ⟨rfl, by rw [h2]⟩
  · intro e2 hfb hbad
    rcases hex : env.primaryExists with _ | _
    · simp [loadModels, hex, hfb]
    · rcases hbad with hfalse | ⟨e, hp⟩
      · rw [hex] at hfalse
        cases hfalse
      · simp [loadModels, hex, hp, hfb]

/-- C8 witness: with the primary file present and loading as model 1, the
resolved model is model 1; with the primary missing and the fallback
raising, startup resolution is the uncaught error. -/
theorem C8_model_resolution_witness :
    loadModels ⟨true, .ok ⟨1⟩, .ok ⟨2⟩⟩ = .ok ⟨1⟩ ∧
    loadModels ⟨false, .ok ⟨1⟩, .error "corrupt"⟩ = .error "corrupt" :=
  ⟨(C8_model_resolution ⟨true, .ok ⟨1⟩, .ok ⟨2⟩⟩).1 ⟨1⟩ rfl rfl,
   (C8_model_resolution ⟨false, .ok ⟨1⟩, .error "corrupt"⟩).2.2.2.2
     "corrupt" rfl (Or.inl rfl)⟩

/-- C9: on every request and every exit path (success, each failure
branch, and a raising stage) the uploaded file is closed exactly once, and
closing is the last side-effecting call: the `finally` block at lines
148-150 runs after the `try` body whatever branch it took. -/
theorem C9_file_closed_every_path (env : RequestEnv) (fn : String) :
    (detect env fn).2.getLast? = some .closeFile ∧
    (detect env fn).2.count .closeFile = 1 := by
  have hno : (tryBody env fn).2.count .closeFile = 0 := by
    rcases hr : env.read with e | b
    · simp [tryBody, hr]
    · rcases hd : env.imdecode b with e | oi
      · simp [tryBody, hr, hd]
      · rcases oi with _ | i
        · simp [tryBody, hr, hd]
        · rcases hz : env.resize i (640, 640) with e | i2
          · simp [tryBody, hr, hd, hz]
          · rcases hp : env.predict i2 detectArgs with e | boxes
            · simp [tryBody, hr, hd, hz, hp]
            · rcases boxes with _ | ⟨d, rest⟩
              · simp [tryBody, hr, hd, hz, hp]
              · simp [tryBody, hr, hd, hz, hp]
  constructor
  · show ((tryBody env fn).2 ++ [Event.closeFile]).getLast? =
      some Event.closeFile
    rw [List.getLast?_concat]
  · show ((tryBody env fn).2 ++ [Event.closeFile]).count
      Event.closeFile = 1
    rw [List.count_append, hno]
    rfl

/-- C10: whenever the image decodes and the model returns a non-empty
DetectionSet, the Success response's `confidence` field is the greatest
detection confidence (the list maximum) rounded to 3 decimal places, and
the `class_name` field always equals the `banana_key` field (both are the
same `banana_slug` value at lines 130-131). -/
theorem C10_confidence_max_class_name (env : RequestEnv) (fn : String)
    (b : Bytes) (i i2 : Img) (boxes : List Detection) (m : ℚ)
    (hr : env.read = .ok b) (hd : env.imdecode b = .ok (some i))
    (hz : env.resize i (640, 640) = .ok i2)
    (hp : env.predict i2 detectArgs = .ok boxes) (hne : boxes ≠ [])
    (hm : (boxes.map (fun d => d.conf)).maximum = some m) :
    jGet (detect env fn).1 "confidence" = some (.num (round3 m)) ∧
    jGet (detect env fn).1 "class_name" =
      jGet (detect env fn).1 "banana_key" := by
  have h : (detect env fn).1 = successBody boxes fn := by
    simp [detect, tryBody, hr, hd, hz, hp, List.length_eq_zero, hne]
  refine ⟨?_, by rw [h]; rfl⟩
  have hmap : boxes.map (fun d => d.conf) ≠ [] := by
    simpa [List.map_eq_nil_iff] using hne
  have hmax := np_argmax_maximum (boxes.map (fun d => d.conf)) hmap
  have hm2 : m = (boxes.map (fun d => d.conf)).getD
      (np_argmax (boxes.map (fun d => d.conf))) 0 :=
    Option.some.inj (hm.symm.trans hmax)
  rw [h, jGet_successBody_confidence, ← hm2]

/-- The two-detection list used to exercise C10: confidences 0.5 and
0.42. -/
def boxes10 : List Detection := [⟨1, mkRat 1 2⟩, ⟨3, mkRat 42 100⟩]

/-- C10 witness: for detections with confidences 0.5 and 0.42 the response
confidence is round3 of the maximum 0.5, namely 0.500, and class_name
equals banana_key. -/
theorem C10_confidence_max_class_name_witness :
    jGet (detect (okEnv boxes10) "c.jpg").1 "confidence" =
      some (.num (mkRat 500 1000)) ∧
    jGet (detect (okEnv boxes10) "c.jpg").1 "class_name" =
      jGet (detect (okEnv boxes10) "c.jpg").1 "banana_key" := by
  have h := C10_confidence_max_class_name
    (okEnv boxes10) "c.jpg" [1, 2, 3] ⟨0⟩ ⟨1⟩ boxes10
    ((boxes10.map (fun d => d.conf)).getD
      (np_argmax (boxes10.map (fun d => d.conf))) 0)
    rfl rfl rfl rfl (by simp [boxes10])
    (np_argmax_maximum _ (by simp [boxes10]))
  exact ⟨by rw [h.1]; rfl, h.2⟩

end BananaDeploy
